import Mathlib

/-!
Verification development for the TG_BOT_EMA20 signal lifecycle engine.

The definitions below are shallow embeddings of the Python source under
src/: prices and percentages are modelled by rationals, Python floats by
an explicit type with non-finite values, ISO-8601 UTC timestamps by
integer epoch seconds, and JSON dictionaries by structures and
association lists that preserve insertion order.
-/

/-- Model of a Python float: a finite rational or one of the non-finite
values. Comparisons follow IEEE semantics, in particular every comparison
with a non-number is false. -/
inductive Pyf where
  | fin : ℚ → Pyf
  | nan : Pyf
  | inf : Pyf
  | ninf : Pyf
  deriving DecidableEq, Repr

/-- Model of math.isfinite. -/
def Pyf.isfinite : Pyf → Bool
  | .fin _ => true
  | _ => false

/-- IEEE strict less-than: false whenever either side is a non-number. -/
def Pyf.lt : Pyf → Pyf → Bool
  | .fin a, .fin b => a < b
  | .nan, _ => false
  | _, .nan => false
  | .ninf, .ninf => false
  | .ninf, _ => true
  | _, .ninf => false
  | .inf, _ => false
  | .fin _, .inf => true

/-- IEEE less-or-equal: false whenever either side is a non-number. -/
def Pyf.le : Pyf → Pyf → Bool
  | .fin a, .fin b => a ≤ b
  | .nan, _ => false
  | _, .nan => false
  | .ninf, _ => true
  | _, .inf => true
  | .inf, _ => false
  | .fin _, .ninf => false

/-- Float addition; non-numbers propagate, opposite infinities give nan. -/
def Pyf.add : Pyf → Pyf → Pyf
  | .fin a, .fin b => .fin (a + b)
  | .nan, _ => .nan
  | _, .nan => .nan
  | .inf, .ninf => .nan
  | .ninf, .inf => .nan
  | .inf, _ => .inf
  | _, .inf => .inf
  | .ninf, _ => .ninf
  | _, .ninf => .ninf

/-- Float subtraction. -/
def Pyf.sub : Pyf → Pyf → Pyf
  | .fin a, .fin b => .fin (a - b)
  | .nan, _ => .nan
  | _, .nan => .nan
  | .inf, .inf => .nan
  | .ninf, .ninf => .nan
  | .inf, _ => .inf
  | .ninf, _ => .ninf
  | .fin _, .inf => .ninf
  | .fin _, .ninf => .inf

/-- Float multiplication; zero times an infinity is nan. -/
def Pyf.mul : Pyf → Pyf → Pyf
  | .fin a, .fin b => .fin (a * b)
  | .nan, _ => .nan
  | _, .nan => .nan
  | .inf, .inf => .inf
  | .inf, .ninf => .ninf
  | .ninf, .inf => .ninf
  | .ninf, .ninf => .inf
  | .inf, .fin b => if b = 0 then .nan else if 0 < b then .inf else .ninf
  | .fin a, .inf => if a = 0 then .nan else if 0 < a then .inf else .ninf
  | .ninf, .fin b => if b = 0 then .nan else if 0 < b then .ninf else .inf
  | .fin a, .ninf => if a = 0 then .nan else if 0 < a then .ninf else .inf

/-- Float division. Division by an exact zero raises in Python and is
unreachable in the verified paths (the divisor has been validated to be a
positive finite price first); it is mapped to nan here. -/
def Pyf.div : Pyf → Pyf → Pyf
  | .fin a, .fin b => if b = 0 then .nan else .fin (a / b)
  | .nan, _ => .nan
  | _, .nan => .nan
  | .inf, .inf => .nan
  | .inf, .ninf => .nan
  | .ninf, .inf => .nan
  | .ninf, .ninf => .nan
  | .inf, .fin b => if 0 ≤ b then .inf else .ninf
  | .ninf, .fin b => if 0 ≤ b then .ninf else .inf
  | .fin _, .inf => .fin 0
  | .fin _, .ninf => .fin 0

/-- Round a rational to the nearest integer, ties to even, matching the
Python builtin round. -/
def roundHalfEven (q : ℚ) : ℤ :=
  let f : ℤ := ⌊q⌋
  let r : ℚ := q - f
  if r < 1/2 then f
  else if 1/2 < r then f + 1
  else if f % 2 = 0 then f else f + 1

/-- Round a rational to 2 decimal places, ties to even. -/
def round2Q (q : ℚ) : ℚ := (roundHalfEven (q * 100) : ℚ) / 100

/-- Model of round(x, 2) on floats: non-finite values pass through. -/
def Pyf.round2 : Pyf → Pyf
  | .fin q => .fin (round2Q q)
  | x => x

/-- Model of position_manager._validate_price_input: the price must be a
number, finite, and strictly positive. (The isinstance check always
passes in this model, every value is a float.) -/
def validate_price_input (price : Pyf) : Bool :=
  if ¬ price.isfinite then false
  else if price.le (.fin 0) then false
  else true

/-- Leg loop of PositionManager.calculate_pnl: validate each exit price
and weight in order, accumulating the weighted profit fractions; none
models the early return of the 0.0 sentinel on the first invalid leg.
The weight test mirrors the source exactly: weight < 0 or weight > 1
under float comparison. -/
def calculate_pnl_loop (entry : Pyf) (direction : String) :
    List (Pyf × Pyf) → Pyf → Option Pyf
  | [], acc => some acc
  | (exit_price, weight) :: rest, acc =>
    if ¬ validate_price_input exit_price then none
    else if weight.lt (.fin 0) || (Pyf.fin 1).lt weight then none
    else
      let profit_pct :=
        if direction = "LONG" then (exit_price.sub entry).div entry
        else (entry.sub exit_price).div entry
      calculate_pnl_loop entry direction rest (acc.add (profit_pct.mul weight))

/-- Model of PositionManager.calculate_pnl: weighted PnL over a list of
(exit price, weight) legs, returned as a percentage rounded to two
decimals; invalid inputs give the 0.0 sentinel. -/
def calculate_pnl (entry : Pyf) (exits : List (Pyf × Pyf))
    (direction : String) : Pyf :=
  if ¬ validate_price_input entry then .fin 0
  else if exits = [] then .fin 0
  else if ¬ (direction = "LONG" ∨ direction = "SHORT") then .fin 0
  else
    match calculate_pnl_loop entry direction exits (.fin 0) with
    | none => .fin 0
    | some total => (total.mul (.fin 100)).round2

/-- Convenience wrapper of calculate_pnl over exact rationals, used by the
position monitor model where all prices are finite. -/
def calculate_pnlQ (entry : ℚ) (exits : List (ℚ × ℚ))
    (direction : String) : Pyf :=
  calculate_pnl (.fin entry) (exits.map (fun p => (.fin p.1, .fin p.2))) direction

/-! ## Position monitor model (src/position_manager.py) -/

/-- One OHLCV bar; the timestamp is the UTC epoch second of the interval
start (ISO-8601 strings in the source parse to this instant). -/
structure Candle where
  timestamp : ℤ
  high : ℚ
  low : ℚ
  openP : ℚ
  close : ℚ
  deriving DecidableEq, Repr

/-- Fields of an ExtendedPositionData record that the monitor consults. -/
structure Position where
  symbol : String
  direction : String
  entry_price : ℚ
  sl_price : ℚ
  tp1_price : ℚ
  tp2_price : ℚ
  status : String
  deriving DecidableEq, Repr

/-- The mutable dictionary handed to PositionManager.update_signal. A
missing key reads as none (respectively false for the partial_hit flag,
which dict.get reports as the falsy None when absent). -/
structure SignalDict where
  symbol : String
  direction : String
  entry_price : ℚ
  sl_price : ℚ
  tp1_price : ℚ
  tp2_price : ℚ
  status : String
  partial_hit : Bool
  exit_reason : Option String
  current_candle_time : Option ℤ
  monitor_from : Option ℤ
  deriving DecidableEq, Repr

/-- Model of ExtendedPositionData.to_dict as consumed by the monitor: the
serialized dictionary carries no partial_hit, exit_reason, monitor_from or
current_candle_time keys, so they read back as absent. -/
def Position.to_dict (p : Position) : SignalDict :=
  { symbol := p.symbol
    direction := p.direction
    entry_price := p.entry_price
    sl_price := p.sl_price
    tp1_price := p.tp1_price
    tp2_price := p.tp2_price
    status := p.status
    partial_hit := false
    exit_reason := none
    current_candle_time := none
    monitor_from := none }

/-- Direction dispatch of PositionManager.update_signal, after its
monitor_from gate: SL first, then TP2, then TP1, at a single price. -/
def update_signal_levels (signal : SignalDict) (current_price : ℚ) :
    Option SignalDict :=
  let entry := signal.entry_price
  let sl := signal.sl_price
  let tp1 := signal.tp1_price
  let tp2 := signal.tp2_price
  let active := signal.status = "OPEN" ∨ signal.status = "PARTIAL"
  if signal.direction = "LONG" then
    if current_price ≤ sl ∧ active then
      some { signal with status := "CLOSED", exit_reason := some "SL_HIT" }
    else if current_price ≥ tp2 ∧ active then
      some { signal with status := "CLOSED", exit_reason := some "TP2_HIT" }
    else if current_price ≥ tp1 ∧ signal.status = "OPEN" then
      some { signal with
             status := "PARTIAL", partial_hit := true, sl_price := entry }
    else none
  else if signal.direction = "SHORT" then
    if current_price ≥ sl ∧ active then
      some { signal with status := "CLOSED", exit_reason := some "SL_HIT" }
    else if current_price ≤ tp2 ∧ active then
      some { signal with status := "CLOSED", exit_reason := some "TP2_HIT" }
    else if current_price ≤ tp1 ∧ signal.status = "OPEN" then
      some { signal with
             status := "PARTIAL", partial_hit := true, sl_price := entry }
    else none
  else none

/-- Model of PositionManager.update_signal: when both monitor_from and
current_candle_time are present and the candle is strictly before
monitor_from, return none (no transition); otherwise apply the ordered
SL, TP2, TP1 checks at the given price. -/
def update_signal (signal : SignalDict) (current_price : ℚ) :
    Option SignalDict :=
  match signal.monitor_from, signal.current_candle_time with
  | some m, some t =>
    if t < m then none else update_signal_levels signal current_price
  | _, _ => update_signal_levels signal current_price

/-- Exit legs and triggered level derived from the updated dictionary in
PositionManager.monitor_all_positions: SL closes the full weight at the
current sl_price, TP2 closes weight 0.5 if the dictionary records a prior
partial hit and weight 1.0 otherwise, anything else is a TP1 partial
close of weight 0.5 at tp1_price. -/
def monitorExits (u : SignalDict) : List (ℚ × ℚ) × String :=
  let r := u.exit_reason.getD ""
  if r = "SL_HIT" then ([(u.sl_price, 1)], "SL")
  else if r = "TP2_HIT" then
    (if u.partial_hit then [(u.tp2_price, 1/2)] else [(u.tp2_price, 1)], "TP2")
  else ([(u.tp1_price, 1/2)], "TP1")

/-- Update event emitted for a transition, mirroring PositionUpdate. -/
structure PositionUpdate where
  symbol : String
  direction : String
  current_price : ℚ
  old_status : String
  new_status : String
  pnl_percentage : Pyf
  triggered_level : String
  deriving DecidableEq, Repr

/-- Result of processing one closed candle for one position. -/
structure StepResult where
  updated : SignalDict
  update : PositionUpdate
  deriving DecidableEq, Repr

/-- Candle gate of the replay loop in monitor_all_positions: true when a
monitor_from bound is present and the candle timestamp is strictly before
it (such candles are passed over with continue). -/
def candleBeforeMonitorFrom (monitor_from : Option ℤ) (t : ℤ) : Bool :=
  match monitor_from with
  | some m => decide (t < m)
  | none => false

/-- Model of the per-candle body of PositionManager.monitor_all_positions
for a single monitored position: skip candles strictly before
monitor_from, rebuild the working dictionary from the pass-start position
snapshot, then branch in source order (TP2 range check first, TP1 next,
restricted to OPEN status, SL last) and delegate to update_signal at the
chosen price. Returns none when the candle produces no transition. -/
def monitorCandleStep (position : Position) (monitor_from : Option ℤ)
    (cc : Candle) : Option StepResult :=
  if candleBeforeMonitorFrom monitor_from cc.timestamp then none
  else
    let d := { position.to_dict with current_candle_time := some cc.timestamp }
    let original_status := d.status
    let updated? : Option SignalDict :=
      if position.direction = "LONG" then
        if cc.high ≥ position.tp2_price then update_signal d cc.high
        else if cc.high ≥ position.tp1_price ∧ d.status = "OPEN" then
          match update_signal d cc.high with
          | some u =>
            if cc.high ≥ position.tp2_price then update_signal u cc.high
            else some u
          | none => none
        else if cc.low ≤ position.sl_price then update_signal d cc.low
        else none
      else
        if cc.low ≤ position.tp2_price then update_signal d cc.low
        else if cc.low ≤ position.tp1_price ∧ d.status = "OPEN" then
          match update_signal d cc.low with
          | some u =>
            if cc.low ≤ position.tp2_price then update_signal u cc.low
            else some u
          | none => none
        else if cc.high ≥ position.sl_price then update_signal d cc.high
        else none
    match updated? with
    | none => none
    | some u =>
      let et := monitorExits u
      some
        { updated := u
          update :=
            { symbol := position.symbol
              direction := position.direction
              current_price := (et.1.headD (0, 0)).1
              old_status := original_status
              new_status := u.status
              pnl_percentage :=
                calculate_pnlQ position.entry_price et.1 position.direction
              triggered_level := et.2 } }

/-- Model of the closed-candle replay loop of monitor_all_positions for
one position: candles are visited chronologically, every iteration
re-derives the working dictionary from the same pass-start snapshot (the
store write-back of an earlier iteration does not feed back into the
loop), updates are collected, and the loop breaks after a TP2 or SL
trigger while a TP1 trigger lets the replay continue. -/
def monitorPosition (position : Position) (monitor_from : Option ℤ) :
    List Candle → List PositionUpdate
  | [] => []
  | cc :: rest =>
    match monitorCandleStep position monitor_from cc with
    | none => monitorPosition position monitor_from rest
    | some r =>
      if r.update.triggered_level = "TP2" ∨ r.update.triggered_level = "SL"
      then [r.update]
      else r.update :: monitorPosition position monitor_from rest

/-! ## Moving average engine (src/strategy.py) -/

/-- Tail loop of the pandas ewm(span, adjust=False).mean() recursion:
given the previous smoothed value, each output is
(1 - alpha) * previous + alpha * x. -/
def ewm_adjust_false_go (alpha : ℚ) (prev : ℚ) : List ℚ → List ℚ
  | [] => []
  | x :: xs =>
    let y := (1 - alpha) * prev + alpha * x
    y :: ewm_adjust_false_go alpha y xs

/-- Model of pandas Series.ewm(span, adjust=False).mean() on a list of
closes: seeded by the first value, then the exponential smoothing
recursion; the output has one entry per input entry. -/
def ewm_adjust_false (alpha : ℚ) : List ℚ → List ℚ
  | [] => []
  | x :: xs => x :: ewm_adjust_false_go alpha x xs

/-- Model of StrategyManager.calculate_ema20 applied to the close series
of its ohlcv input: with fewer than 20 closes return the empty list,
otherwise compute the span-20 adjust=False series (alpha = 2/21) and
return the slice from index 19 on; the single-value fallback branches of
the source are kept although they are unreachable when length ≥ 20. -/
def calculate_ema20 (closes : List ℚ) : List ℚ :=
  if closes.length < 20 then []
  else
    let ema_series := ewm_adjust_false (2/21) closes
    if ema_series.length > 19 then ema_series.drop 19
    else
      match ema_series.getLast? with
      | some v => [v]
      | none => []

/-- Textbook recursive exponential moving average as the specification
words it: value 0 is the first close, value i+1 is
(1 - alpha) * value i + alpha * close (i+1), with alpha = 2/(period+1). -/
def emaTextbook (alpha : ℚ) (closes : List ℚ) : ℕ → ℚ
  | 0 => closes.getD 0 0
  | i + 1 => (1 - alpha) * emaTextbook alpha closes i + alpha * closes.getD (i + 1) 0

/-! ## Strict touch detector (src/strategy.py) -/

/-- Association list lookup with string keys, modelling a Python dict
get. -/
def assocLookup {α : Type} (l : List (String × α)) (k : String) : Option α :=
  (l.find? (fun p => p.1 == k)).map (fun p => p.2)

/-- Association list insert or overwrite, modelling a Python dict set
item (insertion order preserved, existing key overwritten in place). -/
def assocInsert {α : Type} (l : List (String × α)) (k : String) (v : α) :
    List (String × α) :=
  if (l.find? (fun p => p.1 == k)).isSome then
    l.map (fun p => if p.1 == k then (k, v) else p)
  else l ++ [(k, v)]

/-- Payload of a successful strict touch detection. -/
structure TouchSuccess where
  direction : String
  entry_price : ℚ
  candle_ts : ℤ
  ema : ℚ
  price_source : String
  deriving DecidableEq, Repr

/-- Outcome of the strict touch detector: a machine readable rejection
reason or the success payload. -/
inductive TouchResult where
  | reject (reason : String)
  | success (s : TouchSuccess)
  deriving DecidableEq, Repr

/-- MAX_CANDLE_AGE_SECONDS of src/strategy.py: 3 hours. -/
def MAX_CANDLE_AGE_SECONDS : ℤ := 60 * 60 * 3

/-- Module level TOUCH_TOLERANCE_PCT of src/strategy.py: the literal
Decimal 0.005 (0.5 percent) assigned at module scope, which shadows the
value imported from config one line earlier. -/
def STRATEGY_TOUCH_TOLERANCE_PCT : ℚ := 5 / 1000

/-- Default of the configurable config.TOUCH_TOLERANCE_PCT: read from the
environment with default 0.001 (0.1 percent). -/
def CONFIG_TOUCH_TOLERANCE_PCT_DEFAULT : ℚ := 1 / 1000

/-- Core of strategy.detect_touch_current_strict with the touch tolerance
fraction as an explicit parameter: staleness guard, two-value history
guard, range touch test against the second to last average value, per
candle dedup, active position guard, then the direction and side of
average check with the mid price preferred over the candle close. -/
def detect_touch_current_strict_with (tolerance_pct : ℚ) (symbol : String)
    (candle : Candle) (ema_series : List ℚ) (bid ask : Option ℚ)
    (last_signal_time : List (String × ℤ)) (active_positions : List String)
    (now : ℤ) : TouchResult :=
  if now - candle.timestamp > MAX_CANDLE_AGE_SECONDS then
    .reject "candle_too_old"
  else if ema_series.length < 2 then .reject "ema_missing"
  else
    let ema_last_closed := ema_series.getD (ema_series.length - 2) 0
    let tol := ema_last_closed * tolerance_pct
    if ¬ (candle.low - tol ≤ ema_last_closed ∧
          ema_last_closed ≤ candle.high + tol) then
      .reject "no_touch"
    else if assocLookup last_signal_time symbol = some candle.timestamp then
      .reject "already_signaled_on_this_candle"
    else if symbol ∈ active_positions then .reject "position_already_open"
    else
      let pr : ℚ × String :=
        match bid, ask with
        | some b, some a => ((b + a) / 2, "mid")
        | _, _ => (candle.close, "candle_close")
      if candle.close > ema_last_closed then
        if pr.1 < ema_last_closed - ema_last_closed * (5 / 100000) then
          .reject "current_price_below_ema_for_long"
        else
          .success
            { direction := "LONG", entry_price := pr.1,
              candle_ts := candle.timestamp, ema := ema_last_closed,
              price_source := pr.2 }
      else
        if pr.1 > ema_last_closed + ema_last_closed * (5 / 100000) then
          .reject "current_price_above_ema_for_short"
        else
          .success
            { direction := "SHORT", entry_price := pr.1,
              candle_ts := candle.timestamp, ema := ema_last_closed,
              price_source := pr.2 }

/-- Model of strategy.detect_touch_current_strict as the source executes
it: the tolerance is the module constant 0.005. -/
def detect_touch_current_strict (symbol : String) (candle : Candle)
    (ema_series : List ℚ) (bid ask : Option ℚ)
    (last_signal_time : List (String × ℤ)) (active_positions : List String)
    (now : ℤ) : TouchResult :=
  detect_touch_current_strict_with STRATEGY_TOUCH_TOLERANCE_PCT symbol candle
    ema_series bid ask last_signal_time active_positions now

/-- Claim side variant following the words of the specification: the same
detector but with the tolerance taken from the configurable environment
value at its default 0.001. -/
def detect_touch_strict_spec_tolerance (symbol : String) (candle : Candle)
    (ema_series : List ℚ) (bid ask : Option ℚ)
    (last_signal_time : List (String × ℤ)) (active_positions : List String)
    (now : ℤ) : TouchResult :=
  detect_touch_current_strict_with CONFIG_TOUCH_TOLERANCE_PCT_DEFAULT symbol
    candle ema_series bid ask last_signal_time active_positions now

/-! ## Signal lifecycle store model (src/strategy.py, src/json_manager.py) -/

/-- Projection of a persisted signal record to the fields consulted by
signal creation; further fields of the stored JSON (history, timestamps,
provenance strings) do not influence the verified behaviour. -/
structure StoredPos where
  signal_id : String
  symbol : String
  direction : String
  entry_price : ℚ
  sl_price : ℚ
  tp1_price : ℚ
  tp2_price : ℚ
  status : String
  cooldown_until : Option ℤ
  entry_candle_time : Option ℤ
  monitor_from : Option ℤ
  ema_value : ℚ
  deriving DecidableEq, Repr

/-- Persisted store document: the positions collection (key to record,
insertion ordered) and the metadata last_signal_candle bookmark map. -/
structure StoreData where
  positions : List (String × StoredPos)
  last_signal_candle : List (String × ℤ)
  deriving DecidableEq, Repr

/-- Model of JSONDataManager.get_open_signal: the first stored record
with the given symbol and direction whose status is OPEN or PARTIAL,
scanning the whole positions collection in insertion order. -/
def get_open_signal (store : StoreData) (symbol direction : String) :
    Option StoredPos :=
  (store.positions.find? (fun p =>
    p.2.symbol == symbol && p.2.direction == direction &&
    (p.2.status == "OPEN" || p.2.status == "PARTIAL"))).map (fun p => p.2)

/-- TF_SECONDS of src/strategy.py: the 1h bar interval. -/
def TF_SECONDS : ℤ := 3600

/-- MAX_SIGNALS_PER_MIN of src/strategy.py. -/
def MAX_SIGNALS_PER_MIN : ℕ := 5

/-- Model of StrategyManager.calculate_levels: fixed percentages by
direction, exact decimal arithmetic, returned as (sl, tp1, tp2). -/
def calculate_levels (direction : String) (entry_price : ℚ) : ℚ × ℚ × ℚ :=
  if direction = "LONG" then
    (entry_price * (99/100), entry_price * (1015/1000), entry_price * (103/100))
  else
    (entry_price * (101/100), entry_price * (985/1000), entry_price * (97/100))

/-- Model of strategy.allow_global_signal over the global deque of
creation timestamps: drop entries older than the sliding 60 second
window, reject when the cap is already reached, otherwise record the new
instant. Returns the decision and the new deque. -/
def allow_global_signal (now : ℤ) (signal_timestamps : List ℤ) :
    Bool × List ℤ :=
  let pruned := signal_timestamps.filter (fun ts => ¬ now - ts > 60)
  if MAX_SIGNALS_PER_MIN ≤ pruned.length then (false, pruned)
  else (true, pruned ++ [now])

/-- Cooldown test of create_signal_atomic: it reads the positions entry
stored under the key equal to the symbol (signals.get(symbol)) and checks
whether its cooldown_until instant lies in the future. -/
def cooldown_active (positions : List (String × StoredPos)) (symbol : String)
    (now : ℤ) : Bool :=
  match (assocLookup positions symbol).bind (fun ex => ex.cooldown_until) with
  | some cu => decide (now < cu)
  | none => false

/-- Per candle dedup of create_signal_atomic under the lock: reject when
the bookmark already equals the entry candle instant, otherwise register
it. Returns the decision and the bookmark map to persist on success. -/
def register_candle_bookmark (last_signal_candle : List (String × ℤ))
    (symbol : String) (entry_candle_time : Option ℤ) :
    Bool × List (String × ℤ) :=
  match entry_candle_time with
  | some t =>
    if assocLookup last_signal_candle symbol = some t then
      (true, last_signal_candle)
    else (false, assocInsert last_signal_candle symbol t)
  | none => (false, last_signal_candle)

/-- Projection of a float model value to its rational magnitude (only
applied after validation has established finiteness). -/
def Pyf.qval : Pyf → ℚ
  | .fin q => q
  | _ => 0

/-- Model of strategy.create_signal_atomic as one state transition of the
persisted store and the global throttle deque, executed under the
creation lock: input validation, duplicate active check through
get_open_signal, cooldown check on the symbol keyed entry, per candle
bookmark dedup, global throttle, then level computation and insertion of
the new record under the fresh signal id key. Every rejection returns
none and leaves the persisted store unchanged (the source only calls
save_data on the success path). -/
def create_signal_atomic (store : StoreData) (throttle : List ℤ) (now : ℤ)
    (new_id : String) (symbol direction : String) (entry ema_value : Pyf)
    (entry_candle_time : Option ℤ) :
    Option StoredPos × StoreData × List ℤ :=
  if symbol = "" then (none, store, throttle)
  else if ¬ (direction = "LONG" ∨ direction = "SHORT") then
    (none, store, throttle)
  else if ¬ validate_price_input entry then (none, store, throttle)
  else if ¬ validate_price_input ema_value then (none, store, throttle)
  else if (get_open_signal store symbol direction).isSome then
    (none, store, throttle)
  else if cooldown_active store.positions symbol now then
    (none, store, throttle)
  else
    let bk := register_candle_bookmark store.last_signal_candle symbol
      entry_candle_time
    if bk.1 then (none, store, throttle)
    else
      let gate := allow_global_signal now throttle
      if ¬ gate.1 then (none, store, gate.2)
      else
        let levels := calculate_levels direction entry.qval
        let sig : StoredPos :=
          { signal_id := new_id, symbol := symbol, direction := direction,
            entry_price := entry.qval, sl_price := levels.1,
            tp1_price := levels.2.1, tp2_price := levels.2.2,
            status := "OPEN", cooldown_until := none,
            entry_candle_time := entry_candle_time,
            monitor_from := entry_candle_time.map (fun t => t + TF_SECONDS),
            ema_value := ema_value.qval }
        (some sig,
         { positions := assocInsert store.positions new_id sig,
           last_signal_candle := bk.2 },
         gate.2)

/-- Weighted PnL as the specification words it: per leg the directional
profit fraction times its weight, legs summed, expressed as a percentage
and rounded to two decimals. Stated from the specification text, to be
compared against calculate_pnl as translated from the source. -/
def spec_weighted_pnl (entry : ℚ) (exits : List (ℚ × ℚ))
    (direction : String) : ℚ :=
  round2Q (100 * exits.foldr (fun leg s =>
    (if direction = "LONG" then (leg.1 - entry) / entry
     else (entry - leg.1) / entry) * leg.2 + s) 0)

/-! ## Helper lemmas -/

theorem ewm_go_length (alpha : ℚ) :
    ∀ (xs : List ℚ) (prev : ℚ),
      (ewm_adjust_false_go alpha prev xs).length = xs.length := by
  intro xs
  induction xs with
  | nil => intro prev; rfl
  | cons x xs ih => intro prev; simp [ewm_adjust_false_go, ih]

theorem ewm_length (alpha : ℚ) (closes : List ℚ) :
    (ewm_adjust_false alpha closes).length = closes.length := by
  cases closes with
  | nil => rfl
  | cons x xs => simp [ewm_adjust_false, ewm_go_length]

theorem ewm_go_getD (alpha : ℚ) :
    ∀ (xs : List ℚ) (prev : ℚ) (j : ℕ), j < xs.length →
      (ewm_adjust_false_go alpha prev xs).getD j 0 =
        (1 - alpha) * ((prev :: ewm_adjust_false_go alpha prev xs).getD j 0) +
          alpha * xs.getD j 0 := by
  intro xs
  induction xs with
  | nil => intro prev j hj; simp at hj
  | cons x xs ih =>
    intro prev j hj
    cases j with
    | zero => simp [ewm_adjust_false_go]
    | succ k =>
      have hk : k < xs.length := by simpa using hj
      simpa [ewm_adjust_false_go] using
        ih ((1 - alpha) * prev + alpha * x) k hk

theorem ewm_getD (alpha : ℚ) (closes : List ℚ) :
    ∀ i, i < closes.length →
      (ewm_adjust_false alpha closes).getD i 0 = emaTextbook alpha closes i := by
  cases closes with
  | nil => intro i hi; simp at hi
  | cons x xs =>
    intro i
    induction i with
    | zero => intro hi; simp [ewm_adjust_false, emaTextbook]
    | succ j ih =>
      intro hj
      have hj1 : j < (x :: xs).length := Nat.lt_of_succ_lt hj
      have hjx : j < xs.length := by simpa using hj
      have hgo := ewm_go_getD alpha xs x j hjx
      calc (ewm_adjust_false alpha (x :: xs)).getD (j + 1) 0
          = (ewm_adjust_false_go alpha x xs).getD j 0 := by
            simp [ewm_adjust_false]
        _ = (1 - alpha) * ((x :: ewm_adjust_false_go alpha x xs).getD j 0) +
              alpha * xs.getD j 0 := hgo
        _ = (1 - alpha) * ((ewm_adjust_false alpha (x :: xs)).getD j 0) +
              alpha * ((x :: xs).getD (j + 1) 0) := by
            simp [ewm_adjust_false]
        _ = (1 - alpha) * emaTextbook alpha (x :: xs) j +
              alpha * ((x :: xs).getD (j + 1) 0) := by rw [ih hj1]
        _ = emaTextbook alpha (x :: xs) (j + 1) := by simp [emaTextbook]

theorem getD_drop (l : List ℚ) :
    ∀ (n i : ℕ), (l.drop n).getD i 0 = l.getD (n + i) 0 := by
  induction l with
  | nil => intro n i; simp [List.getD]
  | cons x xs ih =>
    intro n i
    cases n with
    | zero => simp
    | succ m =>
      rw [Nat.succ_add]
      exact ih m i


theorem calculate_pnl_loop_valid (entry : ℚ) (direction : String)
    (hentry : 0 < entry) :
    ∀ (exits : List (ℚ × ℚ)),
      (∀ p ∈ exits, 0 < p.1 ∧ 0 ≤ p.2 ∧ p.2 ≤ 1) →
      ∀ a : ℚ,
      calculate_pnl_loop (.fin entry) direction
          (exits.map (fun p => (.fin p.1, .fin p.2))) (.fin a) =
        some (.fin (a + exits.foldr (fun leg s =>
          (if direction = "LONG" then (leg.1 - entry) / entry
           else (entry - leg.1) / entry) * leg.2 + s) 0)) := by
  intro exits
  induction exits with
  | nil => intro _ a; simp [calculate_pnl_loop]
  | cons x xs ih =>
    intro hlegs a
    obtain ⟨hx, hxs⟩ := List.forall_mem_cons.mp hlegs
    have hne : entry ≠ 0 := ne_of_gt hentry
    have hval : validate_price_input (.fin x.1) = true := by
      simp [validate_price_input, Pyf.isfinite, Pyf.le, not_le, hx.1]
    have hw0 : (Pyf.fin x.2).lt (.fin 0) = false := by
      simp [Pyf.lt, not_lt, hx.2.1]
    have hw1 : (Pyf.fin 1).lt (.fin x.2) = false := by
      simp [Pyf.lt, not_lt, hx.2.2]
    have hstep : calculate_pnl_loop (.fin entry) direction
        ((x :: xs).map (fun p => (.fin p.1, .fin p.2))) (.fin a) =
        calculate_pnl_loop (.fin entry) direction
          (xs.map (fun p => (.fin p.1, .fin p.2)))
          (.fin (a + (if direction = "LONG" then (x.1 - entry) / entry
                      else (entry - x.1) / entry) * x.2)) := by
      by_cases hdir : direction = "LONG" <;>
        simp [calculate_pnl_loop, hval, hw0, hw1, hdir, Pyf.sub, Pyf.div, hne,
          Pyf.mul, Pyf.add]
    rw [hstep, ih hxs, List.foldr_cons]
    exact congrArg (fun z => some (Pyf.fin z)) (by ring)

theorem calculate_pnl_loop_bad (entry : Pyf) (direction : String) :
    ∀ (exits : List (Pyf × Pyf)) (acc : Pyf),
      (∃ p ∈ exits, validate_price_input p.1 = false ∨
        p.2.lt (.fin 0) = true ∨ (Pyf.fin 1).lt p.2 = true) →
      calculate_pnl_loop entry direction exits acc = none := by
  intro exits
  induction exits with
  | nil => intro acc h; simp at h
  | cons x xs ih =>
    intro acc h
    by_cases hv : validate_price_input x.1
    · by_cases hw : x.2.lt (.fin 0) || (Pyf.fin 1).lt x.2
      · cases x
        simp [calculate_pnl_loop, hv, hw]
      · have hx : ¬ (validate_price_input x.1 = false ∨
            x.2.lt (.fin 0) = true ∨ (Pyf.fin 1).lt x.2 = true) := by
          simp only [Bool.or_eq_true, not_or] at hw ⊢
          exact ⟨by simp [hv], by simp [hw.1], by simp [hw.2]⟩
        rcases h with ⟨p, hp, hbad⟩
        rcases List.mem_cons.mp hp with rfl | hmem
        · exact absurd hbad hx
        · cases x
          simp only [calculate_pnl_loop, hv, hw]
          simp only [Bool.not_true, Bool.false_eq_true, if_false, reduceIte,
            Bool.not_false]
          exact ih _ ⟨p, hmem, hbad⟩
    · cases x
      simp [calculate_pnl_loop, hv]

/-! ## Claim theorems -/

/-- C1 (counterexample): for the position monitor the claim that the
stop loss check has top priority within a bar is false. A LONG OPEN
position with entry 50000, SL 49500, TP1 50750, TP2 51500 and one closed
bar with low 49000 (satisfying low ≤ sl_price) and high 51600 closes as
TP2_HIT, not SL_HIT: the monitor checks the TP2 range first. -/
theorem C1_sl_top_priority_counterexample :
    (Candle.mk 0 51600 49000 50000 50100).low ≤ (49500 : ℚ) ∧
    (monitorCandleStep
        { symbol := "BTCUSDT", direction := "LONG", entry_price := 50000,
          sl_price := 49500, tp1_price := 50750, tp2_price := 51500,
          status := "OPEN" }
        none (Candle.mk 0 51600 49000 50000 50100)).map
        (fun r => (r.update.new_status, r.update.triggered_level,
                   r.updated.exit_reason)) =
      some ("CLOSED", "TP2", some "TP2_HIT") ∧
    ("TP2_HIT" : String) ≠ "SL_HIT" := by
  refine ⟨by norm_num, ?_, by decide⟩
  norm_num [monitorCandleStep, candleBeforeMonitorFrom, update_signal,
    update_signal_levels, Position.to_dict, monitorExits]
  simp

/-- C1 (amended): per closed bar the monitor checks the TP2 range first,
then TP1 (only for OPEN status), and stop loss last; an active LONG
position whose bar satisfies low ≤ sl_price transitions to CLOSED with
exit_reason SL_HIT only when the bar does not also satisfy the TP2
condition, nor the TP1 condition while the status is OPEN (mirrored for
SHORT). Within update_signal itself, evaluated at one price, the stop
loss check does come first. -/
theorem C1_monitor_checks_tp_before_sl (p : Position) (mf : Option ℤ)
    (cc : Candle)
    (hactive : p.status = "OPEN" ∨ p.status = "PARTIAL")
    (hgate : ∀ m, mf = some m → m ≤ cc.timestamp)
    (hcase :
      (p.direction = "LONG" ∧ cc.low ≤ p.sl_price ∧
        ¬ cc.high ≥ p.tp2_price ∧
        ¬ (cc.high ≥ p.tp1_price ∧ p.status = "OPEN")) ∨
      (p.direction = "SHORT" ∧ cc.high ≥ p.sl_price ∧
        ¬ cc.low ≤ p.tp2_price ∧
        ¬ (cc.low ≤ p.tp1_price ∧ p.status = "OPEN"))) :
    (monitorCandleStep p mf cc).map
        (fun r => (r.update.new_status, r.update.triggered_level,
                   r.updated.exit_reason)) =
      some ("CLOSED", "SL", some "SL_HIT") := by
  have hg : candleBeforeMonitorFrom mf cc.timestamp = false := by
    rcases mf with _ | m
    · rfl
    · exact decide_eq_false (not_lt.mpr (hgate m rfl))
  rcases hcase with ⟨hdir, hsl, htp2, htp1⟩ | ⟨hdir, hsl, htp2, htp1⟩
  · rcases hactive with hst | hst
    · have hnt1 : ¬ p.tp1_price ≤ cc.high := fun h => htp1 ⟨h, hst⟩
      simp [monitorCandleStep, hg, update_signal, update_signal_levels,
        Position.to_dict, monitorExits, hdir, hst, hsl, htp2, hnt1]
    · simp [monitorCandleStep, hg, update_signal, update_signal_levels,
        Position.to_dict, monitorExits, hdir, hst, hsl, htp2]
  · rcases hactive with hst | hst
    · have hnt1 : ¬ cc.low ≤ p.tp1_price := fun h => htp1 ⟨h, hst⟩
      simp [monitorCandleStep, hg, update_signal, update_signal_levels,
        Position.to_dict, monitorExits, hdir, hst, hsl, htp2, hnt1]
    · simp [monitorCandleStep, hg, update_signal, update_signal_levels,
        Position.to_dict, monitorExits, hdir, hst, hsl, htp2]

/-- C1 (witness): the amended theorem applied to a LONG OPEN position and
a bar that touches the stop but neither take profit level. -/
theorem C1_monitor_checks_tp_before_sl_witness :
    (monitorCandleStep
        { symbol := "BTCUSDT", direction := "LONG", entry_price := 50000,
          sl_price := 49500, tp1_price := 50750, tp2_price := 51500,
          status := "OPEN" }
        none (Candle.mk 0 50100 49400 50000 49800)).map
        (fun r => (r.update.new_status, r.update.triggered_level,
                   r.updated.exit_reason)) =
      some ("CLOSED", "SL", some "SL_HIT") :=
  C1_monitor_checks_tp_before_sl _ _ _ (Or.inl rfl) (fun _ h => nomatch h)
    (Or.inl ⟨rfl, by norm_num, by norm_num, by norm_num⟩)

/-- C2: a single closed bar whose range satisfies both take profit
conditions closes an OPEN position fully at TP2, with status CLOSED,
triggered level TP2 and exit_reason TP2_HIT, not PARTIAL (the TP2 range
check runs before the TP1 check; the well-formedness hypothesis keeps
the stop on the loss side of TP2, as the fixed-percentage levels do). -/
theorem C2_wide_bar_closes_at_tp2 (p : Position) (mf : Option ℤ)
    (cc : Candle)
    (hopen : p.status = "OPEN")
    (hgate : ∀ m, mf = some m → m ≤ cc.timestamp)
    (hcase :
      (p.direction = "LONG" ∧ cc.high ≥ p.tp2_price ∧
        cc.high ≥ p.tp1_price ∧ p.sl_price < p.tp2_price) ∨
      (p.direction = "SHORT" ∧ cc.low ≤ p.tp2_price ∧
        cc.low ≤ p.tp1_price ∧ p.tp2_price < p.sl_price)) :
    (monitorCandleStep p mf cc).map
        (fun r => (r.update.new_status, r.update.triggered_level,
                   r.updated.exit_reason)) =
      some ("CLOSED", "TP2", some "TP2_HIT") := by
  have hg : candleBeforeMonitorFrom mf cc.timestamp = false := by
    rcases mf with _ | m
    · rfl
    · exact decide_eq_false (not_lt.mpr (hgate m rfl))
  rcases hcase with ⟨hdir, htp2, htp1, hwf⟩ | ⟨hdir, htp2, htp1, hwf⟩
  · have hnsl : ¬ cc.high ≤ p.sl_price := fun h =>
      absurd (lt_of_lt_of_le hwf htp2) (not_lt.mpr h)
    simp [monitorCandleStep, hg, update_signal, update_signal_levels,
      Position.to_dict, monitorExits, hdir, hopen, htp2, hnsl]
  · have hnsl : ¬ p.sl_price ≤ cc.low := fun h =>
      absurd (lt_of_le_of_lt htp2 hwf) (not_lt.mpr h)
    simp [monitorCandleStep, hg, update_signal, update_signal_levels,
      Position.to_dict, monitorExits, hdir, hopen, htp2, hnsl]

/-- C2 (witness): the concrete instance of the claim. LONG, entry 50000,
TP1 50750, TP2 51500, SL 49500; a single closed bar with low 50200 and
high 51600 yields CLOSED with triggered level TP2. -/
theorem C2_wide_bar_closes_at_tp2_witness :
    (monitorCandleStep
        { symbol := "BTCUSDT", direction := "LONG", entry_price := 50000,
          sl_price := 49500, tp1_price := 50750, tp2_price := 51500,
          status := "OPEN" }
        none (Candle.mk 0 51600 50200 50300 51400)).map
        (fun r => (r.update.new_status, r.update.triggered_level,
                   r.updated.exit_reason)) =
      some ("CLOSED", "TP2", some "TP2_HIT") :=
  C2_wide_bar_closes_at_tp2 _ _ _ rfl (fun _ h => nomatch h)
    (Or.inl ⟨rfl, by norm_num, by norm_num, by norm_num⟩)

/-- C3 (code bug evaluation): in one monitoring pass over two closed
bars of a LONG position (entry 100, SL 99, TP1 101.5, TP2 103), the
first bar triggers TP1 — and update_signal does move the stop to
breakeven and set the partial flag, first conjunct — but the replay loop
rebuilds its working dictionary from the pass-start snapshot, so the
second bar (low 98.9) closes at the ORIGINAL stop 99 with full weight:
the emitted updates are TP1 at 101.5 for +0.75 and SL at 99 for −1.00,
a net −0.25 despite the banked partial profit, violating the breakeven
invariant the claim states. -/
theorem C3_breakeven_violated_in_same_pass :
    (update_signal
        { symbol := "BTCUSDT", direction := "LONG", entry_price := 100,
          sl_price := 99, tp1_price := 101.5, tp2_price := 103,
          status := "OPEN", partial_hit := false, exit_reason := none,
          current_candle_time := some 0, monitor_from := none }
        101.6).map (fun u => (u.status, u.sl_price, u.partial_hit)) =
      some ("PARTIAL", 100, true) ∧
    (monitorPosition
        { symbol := "BTCUSDT", direction := "LONG", entry_price := 100,
          sl_price := 99, tp1_price := 101.5, tp2_price := 103,
          status := "OPEN" }
        none
        [Candle.mk 0 101.6 100.5 100.6 101.2,
         Candle.mk 3600 101 98.9 100.9 99.5]).map
        (fun u => (u.triggered_level, u.current_price, u.pnl_percentage)) =
      [("TP1", 101.5, Pyf.fin (3/4)), ("SL", 99, Pyf.fin (-1))] ∧
    (99 : ℚ) ≠ 100 ∧
    (3/4 : ℚ) + (-1) < 0 := by
  refine ⟨?_, ?_, by norm_num, by norm_num⟩
  · norm_num [update_signal, update_signal_levels]
  · norm_num [monitorPosition, monitorCandleStep, candleBeforeMonitorFrom,
      update_signal, update_signal_levels, Position.to_dict, monitorExits,
      calculate_pnlQ, calculate_pnl, calculate_pnl_loop, validate_price_input,
      Pyf.isfinite, Pyf.le, Pyf.lt, Pyf.add, Pyf.sub, Pyf.mul, Pyf.div,
      Pyf.round2, round2Q, roundHalfEven, List.cons_ne_nil]
    simp

/-- C4: under the creation lock, whenever an active (OPEN or PARTIAL)
signal for the same symbol and direction already exists anywhere in the
positions collection, create_signal_atomic returns a rejection (none) and
the persisted positions collection is unchanged. -/
theorem C4_duplicate_active_signal_rejected (store : StoreData)
    (throttle : List ℤ) (now : ℤ) (new_id symbol direction : String)
    (entry ema_value : Pyf) (entry_candle_time : Option ℤ)
    (hdup : (get_open_signal store symbol direction).isSome = true) :
    (create_signal_atomic store throttle now new_id symbol direction entry
        ema_value entry_candle_time).1 = none ∧
    (create_signal_atomic store throttle now new_id symbol direction entry
        ema_value entry_candle_time).2.1 = store := by
  unfold create_signal_atomic
  split_ifs <;> simp_all

/-- C4 (witness): a store already holding an OPEN BTCUSDT LONG signal
rejects a second BTCUSDT LONG creation and keeps the store unchanged. -/
theorem C4_duplicate_active_signal_rejected_witness :
    (create_signal_atomic
      { positions :=
          [("id-1",
            { signal_id := "id-1", symbol := "BTCUSDT", direction := "LONG",
              entry_price := 100, sl_price := 99, tp1_price := 101,
              tp2_price := 103, status := "OPEN", cooldown_until := none,
              entry_candle_time := some 0, monitor_from := some 3600,
              ema_value := 100 })],
        last_signal_candle := [] }
      [] 7200 "id-2" "BTCUSDT" "LONG" (.fin 100) (.fin 99) (some 3600)).1 =
      none ∧
    (create_signal_atomic
      { positions :=
          [("id-1",
            { signal_id := "id-1", symbol := "BTCUSDT", direction := "LONG",
              entry_price := 100, sl_price := 99, tp1_price := 101,
              tp2_price := 103, status := "OPEN", cooldown_until := none,
              entry_candle_time := some 0, monitor_from := some 3600,
              ema_value := 100 })],
        last_signal_candle := [] }
      [] 7200 "id-2" "BTCUSDT" "LONG" (.fin 100) (.fin 99) (some 3600)).2.1 =
      { positions :=
          [("id-1",
            { signal_id := "id-1", symbol := "BTCUSDT", direction := "LONG",
              entry_price := 100, sl_price := 99, tp1_price := 101,
              tp2_price := 103, status := "OPEN", cooldown_until := none,
              entry_candle_time := some 0, monitor_from := some 3600,
              ema_value := 100 })],
        last_signal_candle := [] } :=
  C4_duplicate_active_signal_rejected _ _ _ _ _ _ _ _ _
    (by simp [get_open_signal])

/-- C5: for a positive entry, a non-empty list of legs with positive
exit prices and weights within the unit interval, and direction LONG or
SHORT, calculate_pnl returns exactly the weighted PnL of the
specification formula: sum over legs of the directional profit fraction
times weight, times 100, rounded to two decimals. -/
theorem C5_weighted_pnl_formula (entry : ℚ) (exits : List (ℚ × ℚ))
    (direction : String)
    (hentry : 0 < entry) (hne : exits ≠ [])
    (hlegs : ∀ p ∈ exits, 0 < p.1 ∧ 0 ≤ p.2 ∧ p.2 ≤ 1)
    (hdir : direction = "LONG" ∨ direction = "SHORT") :
    calculate_pnlQ entry exits direction =
      .fin (spec_weighted_pnl entry exits direction) := by
  have hval : validate_price_input (.fin entry) = true := by
    simp [validate_price_input, Pyf.isfinite, Pyf.le, not_le, hentry]
  have hmapne : exits.map (fun p => (Pyf.fin p.1, Pyf.fin p.2)) ≠ [] := by
    simpa using hne
  unfold calculate_pnlQ calculate_pnl
  rw [calculate_pnl_loop_valid entry direction hentry exits hlegs 0]
  rcases hdir with h | h <;>
    simp [h, hval, hmapne, spec_weighted_pnl, Pyf.mul, Pyf.round2, zero_add,
      mul_comm]

/-- C5 (witness): the two concrete instances of the claim, entry 100 with
legs at 101.5 and 103 of weight one half giving exactly 2.25 percent, and
entry 100 with one full leg at 99 giving exactly −1.00 percent. -/
theorem C5_weighted_pnl_formula_witness :
    calculate_pnlQ 100 [(101.5, 1/2), (103, 1/2)] "LONG" = .fin (9/4) ∧
    calculate_pnlQ 100 [(99, 1)] "LONG" = .fin (-1) := by
  constructor
  · rw [C5_weighted_pnl_formula 100 [(101.5, 1/2), (103, 1/2)] "LONG"
      (by norm_num) (by simp)
      (by intro p hp; fin_cases hp
          all_goals norm_num)
      (Or.inl rfl)]
    norm_num [spec_weighted_pnl, round2Q, roundHalfEven]
  · rw [C5_weighted_pnl_formula 100 [(99, 1)] "LONG" (by norm_num) (by simp)
      (by intro p hp; fin_cases hp
          all_goals norm_num)
      (Or.inl rfl)]
    norm_num [spec_weighted_pnl, round2Q, roundHalfEven]

/-- C6: for any position and monitor_from instant, a closed bar
timestamped strictly before monitor_from never produces a transition
(the monitor step skips it), and a bar at or after monitor_from is
evaluated exactly as it would be with no gate at all. -/
theorem C6_monitor_from_gating (p : Position) (m : ℤ) (cc : Candle) :
    (cc.timestamp < m → monitorCandleStep p (some m) cc = none) ∧
    (m ≤ cc.timestamp →
      monitorCandleStep p (some m) cc = monitorCandleStep p none cc) := by
  constructor
  · intro h
    simp [monitorCandleStep, candleBeforeMonitorFrom, h]
  · intro h
    simp [monitorCandleStep, candleBeforeMonitorFrom, not_lt.mpr h]

/-- C6 (witness): a bar one hour before monitor_from whose range reaches
TP2 is skipped, and the bar exactly at monitor_from is treated as with no
gate. -/
theorem C6_monitor_from_gating_witness :
    monitorCandleStep
        { symbol := "BTCUSDT", direction := "LONG", entry_price := 50000,
          sl_price := 49500, tp1_price := 50750, tp2_price := 51500,
          status := "OPEN" }
        (some 3600) (Candle.mk 0 51600 50200 50300 51400) = none ∧
    monitorCandleStep
        { symbol := "BTCUSDT", direction := "LONG", entry_price := 50000,
          sl_price := 49500, tp1_price := 50750, tp2_price := 51500,
          status := "OPEN" }
        (some 3600) (Candle.mk 3600 51600 50200 50300 51400) =
      monitorCandleStep
        { symbol := "BTCUSDT", direction := "LONG", entry_price := 50000,
          sl_price := 49500, tp1_price := 50750, tp2_price := 51500,
          status := "OPEN" }
        none (Candle.mk 3600 51600 50200 50300 51400) :=
  ⟨(C6_monitor_from_gating _ 3600 _).1 (by norm_num),
   (C6_monitor_from_gating _ 3600 _).2 (by norm_num)⟩

/-- C7 (counterexample): the strict touch detector does not use the
configurable tolerance (default 0.1 percent): with last closed average
100 and an in-progress bar of low 100.3 and high 101, the source code
accepts the touch (tolerance 0.5 percent from the module constant) while
the detector run at the configured default 0.1 percent rejects it with
no_touch. -/
theorem C7_tolerance_counterexample :
    detect_touch_current_strict "BTCUSDT" (Candle.mk 0 101 100.3 100.5 100.8)
        [100, 999] none none [] [] 0 =
      .success
        { direction := "LONG", entry_price := 100.8, candle_ts := 0,
          ema := 100, price_source := "candle_close" } ∧
    detect_touch_strict_spec_tolerance "BTCUSDT"
        (Candle.mk 0 101 100.3 100.5 100.8) [100, 999] none none [] [] 0 =
      .reject "no_touch" := by
  constructor
  · norm_num [detect_touch_current_strict, detect_touch_current_strict_with,
      STRATEGY_TOUCH_TOLERANCE_PCT, MAX_CANDLE_AGE_SECONDS, assocLookup]
    simp
  · norm_num [detect_touch_strict_spec_tolerance,
      detect_touch_current_strict_with, CONFIG_TOUCH_TOLERANCE_PCT_DEFAULT,
      MAX_CANDLE_AGE_SECONDS, assocLookup]

/-- C7 (amended): the strict touch detector computes its tolerance from
the fixed module constant 0.005 (which shadows the configurable value
imported from config): for a fresh bar and at least two average values,
the detector rejects with no_touch exactly when the last closed average
(second to last series element) lies outside low − tol to high + tol
with tol = average × 0.005. -/
theorem C7_touch_uses_fixed_half_percent_tolerance (symbol : String)
    (candle : Candle) (ema_series : List ℚ) (bid ask : Option ℚ)
    (last_signal_time : List (String × ℤ)) (active_positions : List String)
    (now : ℤ)
    (hfresh : ¬ now - candle.timestamp > MAX_CANDLE_AGE_SECONDS)
    (hlen : ¬ ema_series.length < 2) :
    (detect_touch_current_strict symbol candle ema_series bid ask
        last_signal_time active_positions now = .reject "no_touch") ↔
      ¬ (candle.low - (ema_series.getD (ema_series.length - 2) 0) *
            STRATEGY_TOUCH_TOLERANCE_PCT ≤
          ema_series.getD (ema_series.length - 2) 0 ∧
        ema_series.getD (ema_series.length - 2) 0 ≤
          candle.high + (ema_series.getD (ema_series.length - 2) 0) *
            STRATEGY_TOUCH_TOLERANCE_PCT) := by
  unfold detect_touch_current_strict detect_touch_current_strict_with
  rw [if_neg hfresh, if_neg hlen]
  by_cases ht : ¬ (candle.low - (ema_series.getD (ema_series.length - 2) 0) *
      STRATEGY_TOUCH_TOLERANCE_PCT ≤ ema_series.getD (ema_series.length - 2) 0 ∧
    ema_series.getD (ema_series.length - 2) 0 ≤
      candle.high + (ema_series.getD (ema_series.length - 2) 0) *
        STRATEGY_TOUCH_TOLERANCE_PCT)
  · simp only [ht, if_true, reduceIte]
    simp [ht]
  · simp only [ht, if_false, reduceIte]
    split_ifs <;> simp [ht]

/-- C7 (witness): with last closed average 100 and a bar of low 100.6,
the average lies more than 0.5 percent below the low, so the detector
rejects with no_touch. -/
theorem C7_touch_uses_fixed_half_percent_tolerance_witness :
    detect_touch_current_strict "BTCUSDT" (Candle.mk 0 101 100.6 100.7 100.8)
        [100, 999] none none [] [] 0 = .reject "no_touch" := by
  rw [C7_touch_uses_fixed_half_percent_tolerance "BTCUSDT"
    (Candle.mk 0 101 100.6 100.7 100.8) [100, 999] none none [] [] 0
    (by norm_num [MAX_CANDLE_AGE_SECONDS]) (by norm_num)]
  norm_num [STRATEGY_TOUCH_TOLERANCE_PCT]

/-- C8 (counterexample): the cooldown check only consults the positions
entry stored under the key equal to the symbol. A store whose only record
sits under a uuid signal id key — symbol BTCUSDT, status CLOSED,
cooldown_until 2000, current instant 1000 (inside the cooldown) — does
not trigger the cooldown rejection: create_signal_atomic creates and
persists a brand new record instead. -/
theorem C8_cooldown_uuid_key_counterexample :
    ((1000 : ℤ) < 2000) ∧
    (assocLookup
      [("8f3a-uuid",
        ({ signal_id := "8f3a-uuid", symbol := "BTCUSDT", direction := "LONG",
           entry_price := 100, sl_price := 99, tp1_price := 101,
           tp2_price := 103, status := "CLOSED",
           cooldown_until := some 2000, entry_candle_time := some (-3600),
           monitor_from := some 0, ema_value := 100 } : StoredPos))]
      "BTCUSDT" = none) ∧
    (create_signal_atomic
      { positions :=
          [("8f3a-uuid",
            { signal_id := "8f3a-uuid", symbol := "BTCUSDT",
              direction := "LONG", entry_price := 100, sl_price := 99,
              tp1_price := 101, tp2_price := 103, status := "CLOSED",
              cooldown_until := some 2000, entry_candle_time := some (-3600),
              monitor_from := some 0, ema_value := 100 })],
        last_signal_candle := [] }
      [] 1000 "new-uuid" "BTCUSDT" "LONG" (.fin 100) (.fin 99)
      (some 0)).1.isSome = true ∧
    (create_signal_atomic
      { positions :=
          [("8f3a-uuid",
            { signal_id := "8f3a-uuid", symbol := "BTCUSDT",
              direction := "LONG", entry_price := 100, sl_price := 99,
              tp1_price := 101, tp2_price := 103, status := "CLOSED",
              cooldown_until := some 2000, entry_candle_time := some (-3600),
              monitor_from := some 0, ema_value := 100 })],
        last_signal_candle := [] }
      [] 1000 "new-uuid" "BTCUSDT" "LONG" (.fin 100) (.fin 99)
      (some 0)).2.1.positions.length = 2 := by
  refine ⟨by norm_num, by simp [assocLookup], ?_, ?_⟩
  · norm_num [create_signal_atomic, get_open_signal, cooldown_active,
      assocLookup, assocInsert, register_candle_bookmark, allow_global_signal,
      validate_price_input, Pyf.isfinite, Pyf.le, MAX_SIGNALS_PER_MIN]
    simp
  · norm_num [create_signal_atomic, get_open_signal, cooldown_active,
      assocLookup, assocInsert, register_candle_bookmark, allow_global_signal,
      validate_price_input, Pyf.isfinite, Pyf.le, MAX_SIGNALS_PER_MIN]
    simp

/-- C8 (amended): when the positions collection stores a record under the
key equal to the symbol itself and that record carries a cooldown_until
instant in the future, create_signal_atomic rejects the call (none) and
leaves the persisted positions unchanged; records stored under other
keys, such as the uuid signal id keys the function itself writes, are not
consulted by the cooldown check. -/
theorem C8_cooldown_symbol_keyed_only (store : StoreData)
    (throttle : List ℤ) (now : ℤ) (new_id symbol direction : String)
    (entry ema_value : Pyf) (entry_candle_time : Option ℤ)
    (hcool : cooldown_active store.positions symbol now = true) :
    (create_signal_atomic store throttle now new_id symbol direction entry
        ema_value entry_candle_time).1 = none ∧
    (create_signal_atomic store throttle now new_id symbol direction entry
        ema_value entry_candle_time).2.1 = store := by
  unfold create_signal_atomic
  split_ifs <;> simp_all

/-- C8 (witness): a legacy record stored under the symbol key with a
future cooldown is rejected and the store is unchanged. -/
theorem C8_cooldown_symbol_keyed_only_witness :
    (create_signal_atomic
      { positions :=
          [("BTCUSDT",
            { signal_id := "old-id", symbol := "BTCUSDT", direction := "LONG",
              entry_price := 100, sl_price := 99, tp1_price := 101,
              tp2_price := 103, status := "CLOSED",
              cooldown_until := some 2000, entry_candle_time := some 0,
              monitor_from := some 3600, ema_value := 100 })],
        last_signal_candle := [] }
      [] 1000 "new-id" "BTCUSDT" "LONG" (.fin 100) (.fin 99) (some 0)).1 =
      none ∧
    (create_signal_atomic
      { positions :=
          [("BTCUSDT",
            { signal_id := "old-id", symbol := "BTCUSDT", direction := "LONG",
              entry_price := 100, sl_price := 99, tp1_price := 101,
              tp2_price := 103, status := "CLOSED",
              cooldown_until := some 2000, entry_candle_time := some 0,
              monitor_from := some 3600, ema_value := 100 })],
        last_signal_candle := [] }
      [] 1000 "new-id" "BTCUSDT" "LONG" (.fin 100) (.fin 99) (some 0)).2.1 =
      { positions :=
          [("BTCUSDT",
            { signal_id := "old-id", symbol := "BTCUSDT", direction := "LONG",
              entry_price := 100, sl_price := 99, tp1_price := 101,
              tp2_price := 103, status := "CLOSED",
              cooldown_until := some 2000, entry_candle_time := some 0,
              monitor_from := some 3600, ema_value := 100 })],
        last_signal_candle := [] } :=
  C8_cooldown_symbol_keyed_only _ _ _ _ _ _ _ _ _
    (by simp [cooldown_active, assocLookup])

/-- C9 (counterexample): the moving average computation does not return a
sequence of the same length as its input: 25 ordered positive closes
yield only 6 values (the slice from index 19 on). -/
theorem C9_length_counterexample :
    (List.replicate 25 (1 : ℚ)).length = 25 ∧
    (calculate_ema20 (List.replicate 25 (1 : ℚ))).length = 6 ∧
    (6 : ℕ) ≠ 25 := by
  have hlen : (ewm_adjust_false (2/21) (List.replicate 25 (1 : ℚ))).length =
      25 := by
    rw [ewm_length]; simp
  refine ⟨by simp, ?_, by decide⟩
  unfold calculate_ema20
  rw [if_neg (by simp), if_pos (by omega), List.length_drop, hlen]

/-- C9 (amended): for at least 20 closes, calculate_ema20 returns the
values of the recursive exponential smoothing with factor 2/(20+1)
seeded by the first close (the adjust=False convention), restricted to
indices 19 and up: the output has length n − 19 and its i-th element is
the textbook EMA at index i + 19. -/
theorem C9_ema_slice_from_index_19 (closes : List ℚ)
    (h : 20 ≤ closes.length) :
    (calculate_ema20 closes).length = closes.length - 19 ∧
    ∀ i, i < closes.length - 19 →
      (calculate_ema20 closes).getD i 0 =
        emaTextbook (2/21) closes (i + 19) := by
  have hlen : (ewm_adjust_false (2/21) closes).length = closes.length :=
    ewm_length (2/21) closes
  have h20 : ¬ closes.length < 20 := not_lt.mpr h
  have h19 : (ewm_adjust_false (2/21) closes).length > 19 := by omega
  have hgt : closes.length > 19 := by omega
  constructor
  · simp only [calculate_ema20, h20, if_false, h19, if_true, reduceIte,
      List.length_drop, hlen, hgt]
  · intro i hi
    simp only [calculate_ema20, h20, if_false, h19, if_true, reduceIte]
    rw [getD_drop, ewm_getD (2/21) closes (19 + i) (by omega),
      Nat.add_comm 19 i]

/-- C9 (witness): on 20 constant closes the output has one element, equal
to the textbook EMA at index 19. -/
theorem C9_ema_slice_from_index_19_witness :
    (calculate_ema20 (List.replicate 20 (1 : ℚ))).length =
      (List.replicate 20 (1 : ℚ)).length - 19 ∧
    (calculate_ema20 (List.replicate 20 (1 : ℚ))).getD 0 0 =
      emaTextbook (2/21) (List.replicate 20 (1 : ℚ)) 19 :=
  ⟨(C9_ema_slice_from_index_19 (List.replicate 20 (1 : ℚ)) (by simp)).1,
   (C9_ema_slice_from_index_19 (List.replicate 20 (1 : ℚ)) (by simp)).2 0
     (by simp)⟩

/-- C10 (counterexample): calculate_pnl does not return the 0.0 sentinel
for every weight outside the unit interval: a NaN weight is not a finite
value in the interval, yet it passes the comparison based validation
(both NaN comparisons are false) and propagates to a NaN result. -/
theorem C10_nan_weight_counterexample :
    calculate_pnl (.fin 100) [(.fin 101, .nan)] "LONG" = .nan ∧
    Pyf.nan ≠ .fin 0 ∧
    (∀ q : ℚ, Pyf.nan ≠ .fin q) := by
  refine ⟨?_, by simp, fun q => by simp⟩
  norm_num [calculate_pnl, calculate_pnl_loop, validate_price_input,
    Pyf.isfinite, Pyf.le, Pyf.lt, Pyf.add, Pyf.sub, Pyf.mul, Pyf.div,
    Pyf.round2, round2Q, roundHalfEven, List.cons_ne_nil]

/-- C10 (amended): calculate_pnl is total and returns the 0.0 sentinel
for every input whose entry price fails validation (non-finite or at or
below zero), whose exits list is empty, whose direction is neither LONG
nor SHORT, or that contains a leg whose exit price fails validation or
whose weight compares below 0 or above 1 under float comparison (which a
NaN weight does not). -/
theorem C10_invalid_inputs_yield_sentinel (entry : Pyf)
    (exits : List (Pyf × Pyf)) (direction : String)
    (hbad : validate_price_input entry = false ∨ exits = [] ∨
      ¬ (direction = "LONG" ∨ direction = "SHORT") ∨
      ∃ p ∈ exits, validate_price_input p.1 = false ∨
        p.2.lt (.fin 0) = true ∨ (Pyf.fin 1).lt p.2 = true) :
    calculate_pnl entry exits direction = .fin 0 := by
  unfold calculate_pnl
  by_cases h1 : validate_price_input entry
  · by_cases h2 : exits = []
    · simp [h1, h2]
    · by_cases h3 : direction = "LONG" ∨ direction = "SHORT"
      · have hleg : ∃ p ∈ exits, validate_price_input p.1 = false ∨
            p.2.lt (.fin 0) = true ∨ (Pyf.fin 1).lt p.2 = true := by
          rcases hbad with hb | hb | hb | hb
          · exact absurd hb (by simp [h1])
          · exact absurd hb h2
          · exact absurd h3 hb
          · exact hb
        rw [calculate_pnl_loop_bad entry direction exits (.fin 0) hleg]
        simp [h1, h2, h3]
      · simp [h1, h2, h3]
  · simp [h1]

/-- C10 (witness): a weight of 2 is rejected and the sentinel 0.0 is
returned. -/
theorem C10_invalid_inputs_yield_sentinel_witness :
    calculate_pnl (.fin 100) [(.fin 101, .fin 2)] "LONG" = .fin 0 := by
  refine C10_invalid_inputs_yield_sentinel _ _ _
    (Or.inr (Or.inr (Or.inr ⟨(.fin 101, .fin 2), ?_, ?_⟩)))
  · simp
  · right; right; simp [Pyf.lt]
